import Mathlib

/-!
Verification development for the carl-torch estimator core
(src/ml/base.py and src/ml/ratio.py).

The Python code is shallowly embedded: numpy 2-D arrays become lists of
rows over the rationals, the estimator object becomes an explicit state
record, raised exceptions become an error type, and external
collaborators (the array loader, the loss and optimizer factories, the
Trainer, the plotting utilities) are abstracted as function parameters
or as opaque result records, exactly as the design document scopes them
out. The square root used by numpy.std is irrational in general, so the
scaler is parametrized by an arbitrary square-root function; no theorem
below depends on its values.
-/

namespace CarlTorch

/-- A numpy 2-D array: a list of rows of rationals. -/
abbrev NDArray := List (List Rat)

/-- Python exception classes raised (directly or via numpy) by the code
under study. Each constructor carries the message text. -/
inductive PyError where
  | valueError (msg : String)
  | runtimeError (msg : String)
  | typeError (msg : String)
  | keyError (msg : String)
  | attributeError (msg : String)
  | assertionError (msg : String)
  | zeroDivisionError (msg : String)
deriving DecidableEq, Repr

/-- A value stored in the training-data dictionary or passed to the
evaluation entry points: Python None, a file path string, or an
in-memory array. -/
inductive DataValue where
  | null
  | path (s : String)
  | arr (m : NDArray)
deriving DecidableEq, Repr

/-- Python `x is None`. -/
def DataValue.isNull : DataValue → Bool
  | .null => true
  | _ => false

/-- Python len(x): arrays have their row count, strings their length,
None raises TypeError. -/
def pyLen : DataValue → Except PyError Nat
  | .arr m => .ok m.length
  | .path s => .ok s.length
  | .null => .error (.typeError "object of type NoneType has no len")

/-- x.shape[0]: number of rows (samples). -/
def nRows (m : NDArray) : Nat := m.length

/-- x.shape[1]: number of columns (observables) of a rectangular array. -/
def shape1 (m : NDArray) : Nat := (m.headD []).length

/-- np.mean(x, axis=0): per-column mean. -/
def colMeans (m : NDArray) : List Rat :=
  m.transpose.map (fun col => col.sum / (m.length : Rat))

/-- Per-column population variance (the square of np.std(x, axis=0)). -/
def colVariances (m : NDArray) : List Rat :=
  m.transpose.map (fun col =>
    let mu := col.sum / (m.length : Rat)
    (col.map (fun a => (a - mu) ^ 2)).sum / (m.length : Rat))

/-- np.std(x, axis=0), parametrized by a square-root function on the
rationals (the true square root is irrational in general). -/
def colStds (sq : Rat → Rat) (m : NDArray) : List Rat :=
  (colVariances m).map sq

/-- The learned-model handle created by RatioEstimator._create_model:
it records the constructor arguments passed to RatioModel. The learned
parameters themselves are owned by the external torch collaborator. -/
structure RatioModel where
  n_observables : Option Nat
  n_hidden : List Nat
  activation : String
  dropout_prob : Rat
deriving DecidableEq, Repr

/-- The mutable attribute state of an Estimator / RatioEstimator
instance, as set up by Estimator.__init__. -/
structure EstimatorState where
  features : Option (List Nat)
  n_hidden : List Nat
  activation : String
  dropout_prob : Rat
  model : Option RatioModel
  n_observables : Option Nat
  n_parameters : Option Nat
  x_scaling_means : Option (List Rat)
  x_scaling_stds : Option (List Rat)
deriving DecidableEq, Repr

/-- Estimator.__init__(features=None, n_hidden=(100,), activation="tanh",
dropout_prob=0.0). -/
def estimatorInit (features : Option (List Nat) := none)
    (n_hidden : List Nat := [100]) (activation : String := "tanh")
    (dropout_prob : Rat := 0) : EstimatorState :=
  { features := features, n_hidden := n_hidden, activation := activation,
    dropout_prob := dropout_prob, model := none, n_observables := none,
    n_parameters := none, x_scaling_means := none, x_scaling_stds := none }

/-- Estimator.initialize_input_transform. Note that the disabling
branch builds the zero/one vectors from x.shape[0] (the row count),
exactly as the source does. -/
def initialize_input_transform (sq : Rat → Rat) (st : EstimatorState)
    (x : NDArray) (transform : Bool := true) (overwrite : Bool := true) :
    EstimatorState :=
  if st.x_scaling_stds.isSome && st.x_scaling_means.isSome && !overwrite then
    st
  else if transform then
    { st with
        x_scaling_means := some (colMeans x),
        x_scaling_stds :=
          some ((colStds sq x).map (fun s => max s (1 / 1000000))) }
  else
    let n_parameters := x.length
    { st with
        x_scaling_means := some (List.replicate n_parameters 0),
        x_scaling_stds := some (List.replicate n_parameters 1) }

/-- One numpy broadcast of a binary operation between a row of length c
and a stats vector of length k: legal iff k = c, k = 1 or c = 1,
otherwise numpy raises a ValueError. -/
def broadcastOp (f : Rat → Rat → Rat) (row v : List Rat) :
    Option (List Rat) :=
  if row.length = v.length then some (List.zipWith f row v)
  else if v.length = 1 then some (row.map (fun a => f a (v.headD 0)))
  else if row.length = 1 then some (v.map (fun b => f (row.headD 0) b))
  else none

/-- Apply a per-row broadcast across all rows; none signals the numpy
broadcast ValueError. -/
def mapRowsB (f : List Rat → Option (List Rat)) : NDArray → Option NDArray
  | [] => some []
  | r :: rs =>
    match f r, mapRowsB f rs with
    | some r2, some rs2 => some (r2 :: rs2)
    | _, _ => none

/-- Estimator._transform_inputs on an in-memory array: if both scaling
vectors are present, compute (x - means) / stds with numpy broadcast
semantics, else return x unchanged. -/
def transform_inputs (st : EstimatorState) (m : NDArray) :
    Except PyError NDArray :=
  match st.x_scaling_means, st.x_scaling_stds with
  | some means, some stds =>
    match mapRowsB (fun r => broadcastOp (fun a b => a - b) r means) m with
    | none => .error (.valueError "operands could not be broadcast together")
    | some m1 =>
      match mapRowsB (fun r => broadcastOp (fun a b => a / b) r stds) m1 with
      | none =>
        .error (.valueError "operands could not be broadcast together")
      | some m2 => .ok m2
  | _, _ => .ok m

/-- x[:, features]. Every claim exercises in-range indices only; numpy
would raise an IndexError on an out-of-range index, which is not
modelled (the default 0 stands in for that unreachable case). -/
def restrictCols (fs : List Nat) (m : NDArray) : NDArray :=
  m.map (fun row => fs.map (fun i => row.getD i 0))

/-- The serialized value of the features field in a settings record:
JSON null, the legacy literal string None, or a list of indices. -/
inductive FeaturesField where
  | fnull
  | fnoneString
  | flist (l : List Nat)
deriving DecidableEq, Repr

/-- The on-disk settings record written to prefix_settings.json. The
fields that the decoder accesses bare (and that the encoder always
writes) are required; estimator_type and dropout_prob are optional
because the decoder has explicit handling for records that predate
them. n_observables and n_parameters are optional because the encoder
serializes a possibly-unset (None) attribute into them. -/
structure Settings where
  estimator_type : Option String
  n_observables : Option Nat
  n_parameters : Option Nat
  features : FeaturesField
  n_hidden : List Nat
  activation : String
  dropout_prob : Option Rat
deriving DecidableEq, Repr

/-- Estimator._wrap_settings (the base record, without a type tag). -/
def wrap_settings (st : EstimatorState) : Settings :=
  { estimator_type := none,
    n_observables := st.n_observables,
    n_parameters := st.n_parameters,
    features := match st.features with
      | none => .fnull
      | some l => .flist l,
    n_hidden := st.n_hidden,
    activation := st.activation,
    dropout_prob := some st.dropout_prob }

/-- RatioEstimator._wrap_settings: the base record plus the type tag. -/
def ratio_wrap_settings (st : EstimatorState) : Settings :=
  { wrap_settings st with
      estimator_type := some "double_parameterized_ratio" }

/-- The message of the RuntimeError raised when estimator_type is
missing from a settings record (apostrophe of the source text omitted). -/
def missingTypeMsg : String :=
  "Cannot find estimator type information in file. Maybe this file was created with an incompatible MadMiner version < v0.3.0?"

/-- Decoding of the features field: null and the legacy literal string
None both decode to use-all-observables. -/
def decodeFeatures : FeaturesField → Option (List Nat)
  | .fnull => none
  | .fnoneString => none
  | .flist l => some l

/-- Estimator._unwrap_settings. Python mutates self field by field, so
the function returns the state as mutated so far together with the
exception raised, if any: int(None) raises TypeError, leaving earlier
assignments in place. -/
def base_unwrap_settings (st : EstimatorState) (s : Settings) :
    EstimatorState × Option PyError :=
  match s.estimator_type with
  | none => (st, some (.runtimeError missingTypeMsg))
  | some _ =>
    match s.n_observables with
    | none => (st, some (.typeError "int argument must not be NoneType"))
    | some nObs =>
      let st1 := { st with n_observables := some nObs }
      match s.n_parameters with
      | none => (st1, some (.typeError "int argument must not be NoneType"))
      | some nPar =>
        let st2 := { st1 with
          n_parameters := some nPar,
          n_hidden := s.n_hidden,
          activation := s.activation,
          features := decodeFeatures s.features,
          dropout_prob := (s.dropout_prob).getD 0 }
        (st2, none)

/-- RatioEstimator._unwrap_settings: run the base decoder first (which
already mutates the configuration fields), then check the type tag. -/
def ratio_unwrap_settings (st : EstimatorState) (s : Settings) :
    EstimatorState × Option PyError :=
  match base_unwrap_settings st s with
  | (st1, some e) => (st1, some e)
  | (st1, none) =>
    match s.estimator_type with
    | some t =>
      if t ≠ "double_parameterized_ratio" then
        (st1, some (.runtimeError
          ("Saved model is an incompatible estimator type " ++ t ++ ".")))
      else (st1, none)
    | none => (st1, some (.keyError "estimator_type"))

/-- RatioEstimator._create_model: record the RatioModel constructor
arguments. -/
def createRatioModel (st : EstimatorState) : RatioModel :=
  { n_observables := st.n_observables, n_hidden := st.n_hidden,
    activation := st.activation, dropout_prob := st.dropout_prob }

/-- The artifacts Estimator.save writes, in order. -/
inductive Artifact where
  | settingsJson (s : Settings)
  | xMeans (v : List Rat)
  | xStds (v : List Rat)
  | stateDict
  | fullModel
deriving DecidableEq, Repr

/-- Estimator.save on a RatioEstimator (settings are wrapped through the
subclass): returns the artifacts written so far paired with the raised
exception, if any. The no-model check precedes every write. -/
def save (st : EstimatorState) (save_model : Bool := false) :
    List Artifact × Option PyError :=
  if st.model.isNone then
    ([], some (.valueError "No model -- train or load model before saving!"))
  else
    ([Artifact.settingsJson (ratio_wrap_settings st)]
      ++ (match st.x_scaling_stds, st.x_scaling_means with
          | some stds, some means => [Artifact.xMeans means, Artifact.xStds stds]
          | _, _ => [])
      ++ [Artifact.stateDict]
      ++ (if save_model then [Artifact.fullModel] else []), none)

/-- Estimator.load on a RatioEstimator: decode the settings record (the
codec may raise, leaving the partially mutated state), construct a
fresh model, then read the optional scaling arrays, falling back to
absent stats with a warning when the files are missing. The state-dict
blob load is external. -/
def load (st : EstimatorState) (s : Settings)
    (scalingFiles : Option (List Rat × List Rat)) :
    EstimatorState × Option PyError :=
  match ratio_unwrap_settings st s with
  | (st1, some e) => (st1, some e)
  | (st1, none) =>
    let st2 := { st1 with model := some (createRatioModel st1) }
    let st3 := match scalingFiles with
      | some p =>
        { st2 with x_scaling_means := some p.1, x_scaling_stds := some p.2 }
      | none =>
        { st2 with x_scaling_means := none, x_scaling_stds := none }
    (st3, none)

/-- RatioEstimator.evaluate_ratio. After the no-model check and the
external load of x, the source line
x = self._transform_inputs(x, scaling=self.scaling_method)
evaluates self.scaling_method, an attribute never assigned anywhere in
the class hierarchy, so the call raises AttributeError (and the base
_transform_inputs signature accepts no scaling argument either, so the
call could not succeed even if the attribute existed). -/
def evaluate_ratio (loader : DataValue → DataValue) (st : EstimatorState)
    (x : DataValue) : Except PyError (List Rat × List Rat) :=
  if st.model.isNone then
    .error (.valueError "No model -- train or load model before evaluating it!")
  else
    let _xLoaded := loader x
    .error (.attributeError
      "RatioEstimator object has no attribute scaling_method")

/-- RatioEstimator.evaluate_performance: no-model check, external load,
input scaling, feature restriction, then delegation to the external
performance evaluator; the value returned here is the array handed to
that collaborator. -/
def evaluate_performance (loader : DataValue → DataValue)
    (st : EstimatorState) (x y : DataValue) : Except PyError NDArray :=
  if st.model.isNone then
    .error (.valueError "No model -- train or load model before evaluating it!")
  else
    let _yLoaded := loader y
    match loader x with
    | .arr m =>
      match transform_inputs st m with
      | .error e => .error e
      | .ok m2 =>
        .ok (match st.features with
          | some fs => restrictCols fs m2
          | none => m2)
    | _ => .error (.typeError "unsupported operand type for NoneType")

/-- The mutable parameter-scaling state added by ConditionalEstimator. -/
structure CondState extends EstimatorState where
  theta_scaling_means : Option (List Rat) := none
  theta_scaling_stds : Option (List Rat) := none
deriving DecidableEq, Repr

/-- ConditionalEstimator.initialize_parameter_transform. The guard of
the already-defined branch reads the observable scaling fields
(x_scaling_stds / x_scaling_means), exactly as the source does, even
though the branch body and its log message concern the theta stats. -/
def initialize_parameter_transform (sq : Rat → Rat) (st : CondState)
    (theta : NDArray) (transform : Bool := true) (overwrite : Bool := true) :
    CondState :=
  if st.x_scaling_stds.isSome && st.x_scaling_means.isSome && !overwrite then
    st
  else if transform then
    { st with
        theta_scaling_means := some (colMeans theta),
        theta_scaling_stds :=
          some ((colStds sq theta).map (fun s => max s (1 / 1000000))) }
  else
    { st with theta_scaling_means := none, theta_scaling_stds := none }

/-- ConditionalEstimator.__init__ on top of the base defaults. -/
def condInit : CondState := { toEstimatorState := estimatorInit }

/-- The caller-supplied training-data dictionary (keys to values), in
insertion order as a Python dict preserves it. -/
abbrev Dict := List (String × DataValue)

/-- The required keys of RatioEstimator.train. -/
def required_list : List String := ["X_train", "y_train", "w_train"]

/-- The optional keys of RatioEstimator.train. -/
def optional_list : List String := ["X0_train", "w0_train", "X1_train", "w1_train"]

/-- input_data_dict[k] = v for a key already present. -/
def updD (d : Dict) (k : String) (v : DataValue) : Dict :=
  match d with
  | [] => []
  | (k2, v2) :: rest =>
    if k2 = k then (k2, v) :: rest else (k2, v2) :: updD rest k v

/-- The loading loop of RatioEstimator.train: for each listed key that
is present, replace its value by the output of the external loader. -/
def loadKeys (loader : DataValue → DataValue) : List String → Dict → Dict
  | [], d => d
  | k :: ks, d =>
    loadKeys loader ks
      (match List.lookup k d with
       | some v => updD d k (loader v)
       | none => d)

/-- The full loading phase over required and optional keys. -/
def loadPhase (loader : DataValue → DataValue) (d : Dict) : Dict :=
  loadKeys loader (required_list ++ optional_list) d

/-- What the loss factory receives as its weight argument: the loaded
w array as-is, or the scalar fallback derived from len(x0)/len(x1). -/
inductive WArg where
  | data (v : DataValue)
  | scalar (q : Rat)
deriving DecidableEq, Repr

/-- RatioEstimator._package_training_data: the ordered x, y, w bundle. -/
structure PackagedData where
  x : NDArray
  y : DataValue
  w : DataValue
deriving DecidableEq, Repr

/-- What train hands to the external collaborators once all estimator-
level work succeeded: the packaged bundles and the loss-factory weight
argument. The fit loop itself is external. -/
structure TrainCall where
  data : PackagedData
  data_val : Option PackagedData
  loss_w : WArg
deriving DecidableEq, Repr

/-- The observable effect of a train call: the (mutated) dictionary,
the (mutated) estimator state, and either the record delegated to the
external Trainer or the exception raised. -/
structure TrainOut where
  dict : Dict
  state : EstimatorState
  result : Except PyError TrainCall
deriving Repr

/-- The effective observable count of a train call: x.shape[1], reduced
by feature restriction when features is set. -/
def effObs (fs : Option (List Nat)) (m : NDArray) : Nat :=
  match fs with
  | none => shape1 m
  | some f => shape1 (restrictCols f m)

/-- The body of RatioEstimator.train after the loading loop, which only
reads the loaded dictionary. Steps in source order: infer dimensions
from X_train, check the external validation split, set up or reuse
input scaling (or materialize the identity stats when scaling is
disabled), restrict features, lock the observable count, package the
bundles, construct the model on first use, and derive the loss-factory
weight argument (falling back to len(x0)/len(x1) when w is None). The
diagnostic plotting and intermediate-statistics branches (guarded by
plot_inputs and intermediate_stats_dist, both defaulting off and
exercised by no claim) are not modelled. -/
def trainAfterLoad (sq : Rat → Rat) (st : EstimatorState) (d2 : Dict)
    (scale_inputs : Bool) : EstimatorState × Except PyError TrainCall :=
  let x := (List.lookup "X_train" d2).getD .null
  let y := (List.lookup "y_train" d2).getD .null
  let w := (List.lookup "w_train" d2).getD .null
  let x0 := (List.lookup "X0_train" d2).getD .null
  let x1 := (List.lookup "X1_train" d2).getD .null
  let x_val := (List.lookup "X_val" d2).getD .null
  let y_val := (List.lookup "y_val" d2).getD .null
  let w_val := (List.lookup "w_val" d2).getD .null
  match x with
  | .arr m =>
    let n_observables := shape1 m
    let ext := !x_val.isNull && !y_val.isNull
    let valChk : Except PyError (Option NDArray) :=
      if ext then
        match x_val with
        | .arr mv =>
          if shape1 mv ≠ n_observables then
            .error (.assertionError "x_val.shape 1 == n_observables")
          else .ok (some mv)
        | _ => .error (.attributeError "object has no attribute shape")
      else .ok none
    match valChk with
    | .error e => (st, .error e)
    | .ok mval =>
      let afterScale : EstimatorState × Except PyError (NDArray × Option NDArray) :=
        if scale_inputs then
          let st1 := initialize_input_transform sq st m true false
          match transform_inputs st1 m with
          | .error e => (st1, .error e)
          | .ok mt =>
            match mval with
            | some mv =>
              match transform_inputs st1 mv with
              | .error e => (st1, .error e)
              | .ok mvt => (st1, .ok (mt, some mvt))
            | none => (st1, .ok (mt, none))
        else
          (initialize_input_transform sq st m false false, .ok (m, mval))
      match afterScale with
      | (st1, .error e) => (st1, .error e)
      | (st1, .ok (mx, mvx)) =>
        let (mx2, nObs2, mvx2) :=
          match st1.features with
          | some fs =>
            (restrictCols fs mx, shape1 (restrictCols fs mx),
             mvx.map (fun mv => restrictCols fs mv))
          | none => (mx, n_observables, mvx)
        let st2 :=
          if st1.n_observables.isNone then
            { st1 with n_observables := some nObs2 }
          else st1
        if (some nObs2 : Option Nat) ≠ st2.n_observables then
          (st2, .error (.runtimeError
            ("Number of observables does not match model: " ++
             toString nObs2 ++ " vs " ++ toString (st2.n_observables.getD 0))))
        else
          let data : PackagedData := { x := mx2, y := y, w := w }
          let data_val :=
            mvx2.map (fun mv => ({ x := mv, y := y_val, w := w_val } : PackagedData))
          let st3 :=
            if st2.model.isNone then
              { st2 with model := some (createRatioModel st2) }
            else st2
          let lossW : Except PyError WArg :=
            if w.isNull then
              match pyLen x0 with
              | .error e => .error e
              | .ok n0 =>
                match pyLen x1 with
                | .error e => .error e
                | .ok n1 =>
                  if n1 = 0 then
                    .error (.zeroDivisionError "division by zero")
                  else .ok (WArg.scalar ((n0 : Rat) / (n1 : Rat)))
            else .ok (WArg.data w)
          match lossW with
          | .error e => (st3, .error e)
          | .ok lw =>
            (st3, .ok { data := data, data_val := data_val, loss_w := lw })
  | _ => (st, .error (.attributeError "object has no attribute shape"))

/-- RatioEstimator.train. The isinstance dict check cannot fail in this
typed embedding; the required-keys check precedes the loading loop, and
everything after the loop only reads the loaded dictionary, which is
returned as mutated. -/
def train (sq : Rat → Rat) (loader : DataValue → DataValue)
    (st : EstimatorState) (input_data_dict : Dict)
    (scale_inputs : Bool := true) : TrainOut :=
  if !(required_list.all (fun k => (List.lookup k input_data_dict).isSome)) then
    { dict := input_data_dict, state := st,
      result := .error (.keyError
        "Unable to look up all required data, please have at least prepared with keys X_train, y_train, w_train") }
  else
    let d2 := loadPhase loader input_data_dict
    let out := trainAfterLoad sq st d2 scale_inputs
    { dict := d2, state := out.1, result := out.2 }

/-- Projection used to compare training outcomes: the weight argument
handed to the loss factory, when train reached it. -/
def lossWeightOf (t : TrainOut) : Option WArg :=
  match t.result with
  | .ok tc => some tc.loss_w
  | .error _ => none

/-! ### Concrete states and inputs used by the witnesses and counterexamples -/

/-- A configured estimator: fresh defaults plus a constructed model. -/
def c1_state : EstimatorState :=
  { estimatorInit with
      model := some { n_observables := some 1, n_hidden := [100],
                      activation := "tanh", dropout_prob := 0 } }

/-- An estimator whose observable count was established earlier. -/
def c2_prior : EstimatorState :=
  { estimatorInit with n_observables := some 3 }

/-- A well-formed settings record whose type tag does not match the
ratio estimator. -/
def c2_mm : Settings :=
  { estimator_type := some "parameterized_ratio", n_observables := some 7,
    n_parameters := some 0, features := .fnull, n_hidden := [10],
    activation := "relu", dropout_prob := some 0 }

/-- A settings record predating type tagging (no estimator_type). -/
def c2_missing : Settings :=
  { estimator_type := none, n_observables := some 1, n_parameters := some 0,
    features := .fnull, n_hidden := [100], activation := "tanh",
    dropout_prob := some 0 }

/-- A conditional estimator with parameter scaling stats already
present but observable scaling stats absent. -/
def c4_state : CondState :=
  { condInit with
      theta_scaling_means := some [0],
      theta_scaling_stds := some [1] }

/-- A training dictionary whose w_train holds None, with per-hypothesis
subsets present, as needed for the sample-weight fallback. -/
def c5_dict (m0 m1 : NDArray) : Dict :=
  [("X_train", .arr [[0]]), ("y_train", .null), ("w_train", .null),
   ("X0_train", .arr m0), ("X1_train", .arr m1)]

/-- An estimator with an established observable count and the given
feature restriction, scaling stats absent. -/
def c6_state (k : Nat) (fs : Option (List Nat)) : EstimatorState :=
  { estimatorInit with n_observables := some k, features := fs }

/-- A minimal training dictionary with present (non-None) weights. -/
def c6_dict (m : NDArray) : Dict :=
  [("X_train", .arr m), ("y_train", .null), ("w_train", .arr [[1]])]

/-- An estimator after a first train on two observables with input
scaling enabled: observable count locked to 2 and scaling stats of
width 2 stored. -/
def c6_bad_state : EstimatorState :=
  { estimatorInit with
      n_observables := some 2,
      x_scaling_means := some [0, 0],
      x_scaling_stds := some [1, 1],
      model := some { n_observables := some 2, n_hidden := [100],
                      activation := "tanh", dropout_prob := 0 } }

/-- A second training dictionary whose X_train has three observables. -/
def c6_bad_dict : Dict :=
  [("X_train", .arr [[0, 0, 0]]), ("y_train", .null), ("w_train", .arr [[1]])]

/-- A ratio estimator as it stands after a successful first train:
model constructed and n_observables set, while n_parameters was never
assigned anywhere in RatioEstimator and is still None. -/
def c9_trained : EstimatorState :=
  { estimatorInit none [8, 4, 2] "relu" 0 with
      n_observables := some 5,
      model := some { n_observables := some 5, n_hidden := [8, 4, 2],
                      activation := "relu", dropout_prob := 0 } }

/-- A dictionary supplying X_train as a file path, for the frame-effect
witness. -/
def c10_dict : Dict :=
  [("X_train", .path "X_train.npy"), ("y_train", .null), ("w_train", .null)]

/-! ### Association-list lemmas for the loading loop -/

theorem lookup_updD_ne {d : Dict} {k k2 : String} {v : DataValue} (h : k2 ≠ k) :
    List.lookup k2 (updD d k v) = List.lookup k2 d := by
  induction d with
  | nil => rfl
  | cons p rest ih =>
    obtain ⟨k3, v3⟩ := p
    by_cases h3 : k3 = k
    · subst h3
      have hb : (k2 == k3) = false := beq_eq_false_iff_ne.mpr h
      simp [updD, List.lookup, hb]
    · have hu : updD ((k3, v3) :: rest) k v = (k3, v3) :: updD rest k v := by
        simp [updD, h3]
      rw [hu]
      cases hb : (k2 == k3) with
      | true => simp [List.lookup, hb]
      | false => simp [List.lookup, hb, ih]

theorem lookup_updD_self {d : Dict} {k : String} {v w : DataValue}
    (h : List.lookup k d = some w) : List.lookup k (updD d k v) = some v := by
  induction d with
  | nil => simp [List.lookup] at h
  | cons p rest ih =>
    obtain ⟨k3, v3⟩ := p
    by_cases h3 : k3 = k
    · subst h3
      simp [updD, List.lookup]
    · have hb : (k == k3) = false := beq_eq_false_iff_ne.mpr (fun he => h3 he.symm)
      have h2 : List.lookup k rest = some w := by
        simpa [List.lookup, hb] using h
      have hu : updD ((k3, v3) :: rest) k v = (k3, v3) :: updD rest k v := by
        simp [updD, h3]
      rw [hu]
      simp [List.lookup, hb, ih h2]

theorem lookup_loadKeys_not_mem (loader : DataValue → DataValue)
    {ks : List String} {d : Dict} {k : String} (h : k ∉ ks) :
    List.lookup k (loadKeys loader ks d) = List.lookup k d := by
  induction ks generalizing d with
  | nil => rfl
  | cons k2 ks ih =>
    have hk2 : k ≠ k2 := fun he => h (he ▸ List.mem_cons_self k2 ks)
    have hks : k ∉ ks := fun he => h (List.mem_cons_of_mem _ he)
    cases hl : List.lookup k2 d with
    | none => simp [loadKeys, hl, ih hks]
    | some v => simp [loadKeys, hl, ih hks, lookup_updD_ne hk2]

theorem lookup_loadKeys_mem (loader : DataValue → DataValue)
    {ks : List String} {d : Dict} {k : String} {v : DataValue}
    (hnd : ks.Nodup) (hk : k ∈ ks) (hv : List.lookup k d = some v) :
    List.lookup k (loadKeys loader ks d) = some (loader v) := by
  induction ks generalizing d with
  | nil => cases hk
  | cons k2 ks ih =>
    rcases List.mem_cons.mp hk with he | hm
    · subst he
      have hnot : k ∉ ks := (List.nodup_cons.mp hnd).1
      simp [loadKeys, hv, lookup_loadKeys_not_mem loader hnot, lookup_updD_self hv]
    · have hk2 : k ≠ k2 := fun he => (List.nodup_cons.mp hnd).1 (he ▸ hm)
      have hnd2 : ks.Nodup := (List.nodup_cons.mp hnd).2
      cases hl : List.lookup k2 d with
      | none => simpa [loadKeys, hl] using ih hnd2 hm hv
      | some v2 =>
        have hv2 : List.lookup k (updD d k2 (loader v2)) = some v :=
          (lookup_updD_ne hk2).trans hv
        simpa [loadKeys, hl] using ih hnd2 hm hv2

/-! ### The claims -/

/-- Claim C1 (code bug). The claim says that on a Configured estimator
evaluate_ratio applies the stored scaling, restricts features and
returns the pair of per-sample outputs. The code instead always raises:
on every state with a model and every input, evaluate_ratio fails with
the AttributeError caused by the never-assigned scaling_method
attribute (line 342 of ratio.py), so no pair is ever returned. -/
theorem C1_evaluate_broken (loader : DataValue → DataValue)
    (st : EstimatorState) (x : DataValue) (h : st.model.isSome) :
    evaluate_ratio loader st x =
      .error (.attributeError
        "RatioEstimator object has no attribute scaling_method") := by
  cases hm : st.model with
  | none => rw [hm] at h; cases h
  | some mdl => simp [ evaluate_ratio, hm]

/-- Claim C1, witness: the theorem applied to a concrete configured
estimator and a concrete input batch. -/
theorem C1_witness :
    c1_state.model.isSome = true ∧
    evaluate_ratio id c1_state (.arr [[1]]) =
      .error (.attributeError
        "RatioEstimator object has no attribute scaling_method") :=
  ⟨rfl, C1_evaluate_broken id c1_state (.arr [[1]]) rfl⟩

/-- Claim C2 (corrected). As amended: when the estimator_type tag is
missing, decoding raises before any field assignment and the estimator
is unchanged; when the tag is present but mismatched, decoding raises,
but only after the base decoder has already overwritten the
configuration fields, so the estimator keeps the mutations the base
decode performed (all fields updated when the record is well-formed). -/
theorem C2_partial_mutation (st : EstimatorState) (s : Settings) :
    (s.estimator_type = none →
      ratio_unwrap_settings st s = (st, some (.runtimeError missingTypeMsg))) ∧
    (∀ t, s.estimator_type = some t → t ≠ "double_parameterized_ratio" →
      (ratio_unwrap_settings st s).1 = (base_unwrap_settings st s).1 ∧
      (ratio_unwrap_settings st s).2.isSome) := by
  constructor
  · intro h
    simp [ratio_unwrap_settings, base_unwrap_settings, h]
  · intro t ht hne
    cases hno : s.n_observables with
    | none => simp [ratio_unwrap_settings, base_unwrap_settings, ht, hno]
    | some a =>
      cases hnp : s.n_parameters with
      | none => simp [ratio_unwrap_settings, base_unwrap_settings, ht, hno, hnp]
      | some b =>
        simp [ratio_unwrap_settings, base_unwrap_settings, ht, hno, hnp, hne]

/-- Claim C2, counterexample to the claim as stated: decoding a record
with a present but mismatched estimator_type raises, yet the estimator
does not keep its prior configuration: n_observables has been
overwritten from 3 to the record value 7. -/
theorem C2_counterexample :
    (ratio_unwrap_settings c2_prior c2_mm).2.isSome = true ∧
    (ratio_unwrap_settings c2_prior c2_mm).1.n_observables = some 7 ∧
    c2_prior.n_observables = some 3 :=
  ⟨rfl, rfl, rfl⟩

/-- Claim C2, witness: the amended theorem applied to a concrete
missing-tag record and a concrete mismatched-tag record. -/
theorem C2_witness :
    ratio_unwrap_settings estimatorInit c2_missing =
      (estimatorInit, some (.runtimeError missingTypeMsg)) ∧
    ((ratio_unwrap_settings c2_prior c2_mm).1 =
      (base_unwrap_settings c2_prior c2_mm).1 ∧
     (ratio_unwrap_settings c2_prior c2_mm).2.isSome) :=
  ⟨(C2_partial_mutation estimatorInit c2_missing).1 rfl,
   (C2_partial_mutation c2_prior c2_mm).2 "parameterized_ratio" rfl (by decide)⟩

/-- Claim C3 (code bug), evaluated at the failing input. For the
2-sample, 3-observable array, initialize_input_transform with transform
disabled materializes identity stats of length 2 = x.shape[0], the row
count, not length 3 = the observable (column) count the claim and the
ScalingStats data model require. The conditional half of the claim does
hold: initialize_parameter_transform with transform disabled sets the
parameter stats to absent. -/
theorem C3_identity_stats_rowcount :
    (initialize_input_transform (fun q => q) estimatorInit
        [[1, 2, 3], [4, 5, 6]] false true).x_scaling_means
      = some (List.replicate 2 0) ∧
    (initialize_input_transform (fun q => q) estimatorInit
        [[1, 2, 3], [4, 5, 6]] false true).x_scaling_stds
      = some (List.replicate 2 1) ∧
    shape1 [[1, 2, 3], [4, 5, 6]] = 3 ∧
    (initialize_parameter_transform (fun q => q) condInit
        [[1, 2], [3, 4]] false true).theta_scaling_means = none ∧
    (initialize_parameter_transform (fun q => q) condInit
        [[1, 2], [3, 4]] false true).theta_scaling_stds = none :=
  ⟨rfl, rfl, rfl, rfl, rfl⟩

/-- Claim C4 (code bug), evaluated at the failing input. With parameter
scaling stats already present (means [0]) but observable scaling stats
absent, initialize_parameter_transform with overwrite=False is not a
no-op: the guard reads the observable stats, so the branch recomputes
the parameter stats from the new theta, giving means [2]. The
conclusion holds for every square-root function since only the means
are inspected. -/
theorem C4_guard_wrong_stats (sq : Rat → Rat) :
    c4_state.x_scaling_means = none ∧
    c4_state.theta_scaling_means = some [0] ∧
    (initialize_parameter_transform sq c4_state [[2]] true false).theta_scaling_means
      = some [2] := by
  refine ⟨rfl, rfl, ?_⟩
  rw [show (initialize_parameter_transform sq c4_state [[2]] true false).theta_scaling_means
      = some [List.sum [(2 : Rat)] / ((1 : Nat) : Rat)] from rfl]
  norm_num

/-- Claim C4, witness: the theorem applied at a concrete square-root
function. -/
theorem C4_witness :
    c4_state.x_scaling_means = none ∧
    c4_state.theta_scaling_means = some [0] ∧
    (initialize_parameter_transform (fun q => q) c4_state [[2]] true
        false).theta_scaling_means = some [2] :=
  C4_guard_wrong_stats (fun q => q)

/-- Claim C5 (corrected). As amended: when w is absent (None after
loading), the scalar reweighting factor passed to the loss factory is
len(x0)/len(x1), the ratio of the numerator-subset (class label 0)
count to the denominator-subset (class label 1) count, for all subset
sizes. -/
theorem C5_weight_factor (m0 m1 : NDArray) (h : m1 ≠ []) :
    (train (fun q => q) id estimatorInit (c5_dict m0 m1) false).result =
      .ok { data := { x := [[0]], y := .null, w := .null },
            data_val := none,
            loss_w := .scalar ((m0.length : Rat) / (m1.length : Rat)) } := by
  match m1 with
  | [] => exact absurd rfl h
  | r :: rs => rfl

/-- Claim C5, counterexample to the claim as stated: with two
numerator-subset samples (x0) and one denominator-subset sample (x1),
the factor the code passes is 2 = len(x0)/len(x1), not the claimed
denominator-to-numerator ratio 1/2. -/
theorem C5_counterexample :
    lossWeightOf (train (fun q => q) id estimatorInit
        (c5_dict [[0], [0]] [[0]]) false) = some (.scalar 2) ∧
    (2 : Rat) ≠ 1 / 2 := by
  constructor
  · rw [show lossWeightOf (train (fun q => q) id estimatorInit
          (c5_dict [[0], [0]] [[0]]) false)
        = some (.scalar (((2 : Nat) : Rat) / ((1 : Nat) : Rat))) from rfl]
    norm_num
  · norm_num

/-- Claim C5, witness: the amended theorem applied at concrete subsets
of sizes 2 and 1. -/
theorem C5_witness :
    (([[0]] : NDArray) ≠ []) ∧
    (train (fun q => q) id estimatorInit (c5_dict [[0], [0]] [[0]]) false).result =
      .ok { data := { x := [[0]], y := .null, w := .null },
            data_val := none,
            loss_w := .scalar (((2 : Nat) : Rat) / ((1 : Nat) : Rat)) } :=
  ⟨by decide, C5_weight_factor [[0], [0]] [[0]] (by decide)⟩

/-- Claim C6 (corrected). As amended: with input scaling disabled (so
that the stored scaling statistics are not applied to the new batch), a
train call whose effective observable count after feature restriction
differs from the established n_observables fails with the RuntimeError
shape-mismatch, and in every case n_observables keeps its established
value; when scale_inputs is true and stored stats of the old width meet
a new width (both at least 2), the call instead fails earlier with a
numpy broadcast ValueError (see the counterexample). -/
theorem C6_dimension_lock (k : Nat) (fs : Option (List Nat)) (m : NDArray) :
    (effObs fs m ≠ k →
      (train (fun q => q) id (c6_state k fs) (c6_dict m) false).result =
        .error (.runtimeError ("Number of observables does not match model: " ++
          toString (effObs fs m) ++ " vs " ++ toString k))) ∧
    (train (fun q => q) id (c6_state k fs) (c6_dict m) false).state.n_observables
      = some k := by
  have h1 : train (fun q => q) id (c6_state k fs) (c6_dict m) false
      = { dict := c6_dict m,
          state := (trainAfterLoad (fun q => q) (c6_state k fs) (c6_dict m) false).1,
          result := (trainAfterLoad (fun q => q) (c6_state k fs) (c6_dict m) false).2 } := rfl
  rw [h1]
  have hx : (List.lookup "X_train" (c6_dict m)).getD .null = .arr m := rfl
  have hw : (List.lookup "w_train" (c6_dict m)).getD .null = .arr [[1]] := rfl
  have hy : (List.lookup "y_train" (c6_dict m)).getD .null = .null := rfl
  have hxv : (List.lookup "X_val" (c6_dict m)).getD .null = .null := rfl
  have hyv : (List.lookup "y_val" (c6_dict m)).getD .null = .null := rfl
  have hwv : (List.lookup "w_val" (c6_dict m)).getD .null = .null := rfl
  have hx0 : (List.lookup "X0_train" (c6_dict m)).getD .null = .null := rfl
  have hx1 : (List.lookup "X1_train" (c6_dict m)).getD .null = .null := rfl
  have hinit : initialize_input_transform (fun q => q) (c6_state k fs) m false false
      = { c6_state k fs with
            x_scaling_means := some (List.replicate m.length 0),
            x_scaling_stds := some (List.replicate m.length 1) } := rfl
  simp only [trainAfterLoad, hx, hw, hy, hxv, hyv, hwv, hx0, hx1, hinit]
  cases fs with
  | none =>
    simp only [effObs, c6_state, estimatorInit, DataValue.isNull]
    by_cases hk : shape1 m = k
    · simp [hk]
    · simp [hk]
  | some f =>
    simp only [effObs, c6_state, estimatorInit, DataValue.isNull]
    by_cases hk : shape1 (restrictCols f m) = k
    · simp [hk]
    · simp [hk]

/-- Claim C6, counterexample to the claim as stated: an estimator
locked to 2 observables with stored width-2 scaling stats, retrained on
a 3-observable batch with scale_inputs=True (the default). The
effective count 3 differs from the stored 2, but the call fails with
the numpy broadcast ValueError raised inside the input transform, not
with the RuntimeError-class shape-mismatch the claim names. -/
theorem C6_counterexample :
    c6_bad_state.n_observables = some 2 ∧
    shape1 [[0, 0, 0]] = 3 ∧
    (train (fun q => q) id c6_bad_state c6_bad_dict true).result =
      .error (.valueError "operands could not be broadcast together") :=
  ⟨rfl, rfl, rfl⟩

/-- Claim C6, witness: the amended theorem applied at a concrete
established count 2 and a concrete 3-observable batch. -/
theorem C6_witness :
    effObs none [[0, 0, 0]] ≠ 2 ∧
    (train (fun q => q) id (c6_state 2 none) (c6_dict [[0, 0, 0]]) false).result =
      .error (.runtimeError ("Number of observables does not match model: " ++
        toString (effObs none [[0, 0, 0]]) ++ " vs " ++ toString 2)) ∧
    (train (fun q => q) id (c6_state 2 none) (c6_dict [[0, 0, 0]]) false).state.n_observables
      = some 2 :=
  ⟨by decide, (C6_dimension_lock 2 none [[0, 0, 0]]).1 (by decide),
   (C6_dimension_lock 2 none [[0, 0, 0]]).2⟩

/-- Claim C7 (confirmed). On an Uninitialized estimator (model is
None), save raises the ValueError with the no-model saving message
before writing any artifact (the written list is empty), and
evaluate_ratio and evaluate_performance raise the same ValueError class
with the no-model evaluating message; none of the three functions
mutates the state, which they only read. -/
theorem C7_state_errors (st : EstimatorState) (loader : DataValue → DataValue)
    (x y : DataValue) (b : Bool) (h : st.model = none) :
    save st b =
      ([], some (.valueError "No model -- train or load model before saving!")) ∧
    evaluate_ratio loader st x =
      .error (.valueError "No model -- train or load model before evaluating it!") ∧
    evaluate_performance loader st x y =
      .error (.valueError "No model -- train or load model before evaluating it!") := by
  refine ⟨?_, ?_, ?_⟩ <;> simp [save, evaluate_ratio, evaluate_performance, h]

/-- Claim C7, witness: the theorem applied to the freshly constructed
estimator. -/
theorem C7_witness :
    estimatorInit.model = none ∧
    (save estimatorInit false =
      ([], some (.valueError "No model -- train or load model before saving!")) ∧
    evaluate_ratio id estimatorInit .null =
      .error (.valueError "No model -- train or load model before evaluating it!") ∧
    evaluate_performance id estimatorInit .null .null =
      .error (.valueError "No model -- train or load model before evaluating it!")) :=
  ⟨rfl, C7_state_errors estimatorInit id .null .null false rfl⟩

/-- Claim C8 (confirmed). Decoding a record without the estimator_type
key fails with the compatibility RuntimeError; decoding a record whose
tag is present but differs from double_parameterized_ratio never
succeeds, and when the record carries the required numeric fields (as
every record written by the codec does) the failure is the RuntimeError
naming the mismatched type. -/
theorem C8_codec_rejection (st : EstimatorState) (s : Settings) :
    (s.estimator_type = none →
      (ratio_unwrap_settings st s).2 = some (.runtimeError missingTypeMsg)) ∧
    (∀ t, s.estimator_type = some t → t ≠ "double_parameterized_ratio" →
      (ratio_unwrap_settings st s).2.isSome ∧
      (s.n_observables.isSome → s.n_parameters.isSome →
        (ratio_unwrap_settings st s).2 =
          some (.runtimeError
            ("Saved model is an incompatible estimator type " ++ t ++ ".")))) := by
  constructor
  · intro h
    simp [ratio_unwrap_settings, base_unwrap_settings, h]
  · intro t ht hne
    cases hno : s.n_observables with
    | none => simp [ratio_unwrap_settings, base_unwrap_settings, ht, hno]
    | some a =>
      cases hnp : s.n_parameters with
      | none => simp [ratio_unwrap_settings, base_unwrap_settings, ht, hno, hnp]
      | some b =>
        simp [ratio_unwrap_settings, base_unwrap_settings, ht, hno, hnp, hne]

/-- Claim C8, witness: the theorem applied to a concrete untagged
record and a concrete mismatched, well-formed record. -/
theorem C8_witness :
    (ratio_unwrap_settings estimatorInit c2_missing).2 =
      some (.runtimeError missingTypeMsg) ∧
    (ratio_unwrap_settings c2_prior c2_mm).2.isSome ∧
    (ratio_unwrap_settings c2_prior c2_mm).2 =
      some (.runtimeError
        ("Saved model is an incompatible estimator type " ++
          "parameterized_ratio" ++ ".")) :=
  ⟨(C8_codec_rejection estimatorInit c2_missing).1 rfl,
   ((C8_codec_rejection c2_prior c2_mm).2 "parameterized_ratio" rfl (by decide)).1,
   ((C8_codec_rejection c2_prior c2_mm).2 "parameterized_ratio" rfl (by decide)).2
     rfl rfl⟩

/-- Claim C9 (code bug), evaluated at the failing input. A
RatioEstimator trained normally still has n_parameters = None (nothing
in the class ever assigns it), so save serializes null into the record;
load then reaches int(settings of n_parameters) and raises TypeError,
so the save/load round-trip of a Configured estimator fails instead of
reproducing the configuration fields. -/
theorem C9_roundtrip_broken :
    c9_trained.model.isSome = true ∧
    c9_trained.n_parameters = none ∧
    (ratio_wrap_settings c9_trained).n_parameters = none ∧
    (load estimatorInit (ratio_wrap_settings c9_trained) none).2 =
      some (.typeError "int argument must not be NoneType") :=
  ⟨rfl, rfl, rfl, rfl⟩

/-- Claim C10 (confirmed). When the required keys are present, train
replaces, in the caller-supplied dictionary it returns as mutated, the
value of every present key among the seven loaded keys by the output of
the external loader; in particular whenever the loader output differs
from the supplied value (as for a file path), the original value is no
longer in the dictionary. -/
theorem C10_dict_mutation (sq : Rat → Rat) (loader : DataValue → DataValue)
    (st : EstimatorState) (d : Dict) (si : Bool) (k : String) (v : DataValue)
    (hreq : required_list.all (fun r => (List.lookup r d).isSome) = true)
    (hk : k ∈ required_list ++ optional_list)
    (hv : List.lookup k d = some v) :
    List.lookup k (train sq loader st d si).dict = some (loader v) ∧
    (loader v ≠ v → List.lookup k (train sq loader st d si).dict ≠ some v) := by
  have hdict : (train sq loader st d si).dict = loadPhase loader d := by
    simp [train, hreq]
  have hnd : (required_list ++ optional_list).Nodup := by decide
  have h1 : List.lookup k (train sq loader st d si).dict = some (loader v) := by
    rw [hdict]
    exact lookup_loadKeys_mem loader hnd hk hv
  refine ⟨h1, fun hlv => ?_⟩
  rw [h1]
  intro he
  exact hlv (Option.some_inj.mp he)

/-- Claim C10, witness: the theorem applied to a concrete dictionary
holding a file path under X_train and a loader that returns an array:
after train the path is gone from the dictionary. -/
theorem C10_witness :
    List.lookup "X_train"
        (train (fun q => q) (fun _ => .arr [[1]]) estimatorInit c10_dict true).dict
      = some (.arr [[1]]) ∧
    List.lookup "X_train"
        (train (fun q => q) (fun _ => .arr [[1]]) estimatorInit c10_dict true).dict
      ≠ some (.path "X_train.npy") :=
  ⟨(C10_dict_mutation (fun q => q) (fun _ => .arr [[1]]) estimatorInit c10_dict
      true "X_train" (.path "X_train.npy") (by decide) (by decide) rfl).1,
   (C10_dict_mutation (fun q => q) (fun _ => .arr [[1]]) estimatorInit c10_dict
      true "X_train" (.path "X_train.npy") (by decide) (by decide) rfl).2
     (by decide)⟩

end CarlTorch
